import Mathlib

/-!
Verification of the test-execution pipeline of the `game` repository
(backend/agents/executor.py, analyzer.py, orchestrator.py) against its
natural-language specification.

The Python code is shallowly embedded: dictionaries become structures,
the browser is an oracle (`StepEnv`/`PageOracle`) supplying the outcome
of each browser call, exceptions become `Except`, and the side effects of
`run_test` (page open/close, artifact persistence) are recorded as an
explicit event trace.
-/

set_option autoImplicit false

namespace Game

/-- A console-log entry `{type, text}` as appended by `_run_steps`. -/
structure LogEntry where
  ty : String
  text : String
deriving DecidableEq, Repr

/-- A step `{action, params}`; `params` models the Python dict as an
association list of string keys to string values. -/
structure Step where
  action : String
  params : List (String × String)
deriving DecidableEq, Repr

/-- `params.get(k)`: first binding of `k`, or `none` (Python `None`). -/
def pget (ps : List (String × String)) (k : String) : Option String :=
  match ps.find? (fun p => p.1 == k) with
  | some p => some p.2
  | none => none

/-- Python `str(x)` applied to a `.get` result: `str(None) = "None"`,
and a present string value renders as itself. -/
def pyStr : Option String → String
  | none => "None"
  | some s => s

/-- Python's notion of whitespace for `str.strip()`. -/
def isPySpace (c : Char) : Bool :=
  c == ' ' || c == '\t' || c == '\n' || c == '\r' || c == '\x0b' || c == '\x0c'

/-- Python `str.strip()`: drop leading and trailing whitespace. -/
def pyStrip (s : String) : String :=
  ⟨((s.data.dropWhile isPySpace).reverse.dropWhile isPySpace).reverse⟩

/-- A viewport `{width, height}`. -/
structure Viewport where
  width : Nat
  height : Nat
deriving DecidableEq, Repr

/-- The default viewport `{"width": 1280, "height": 720}` applied by
`run_test` when the test carries no `viewport` key. -/
def defaultViewport : Viewport := ⟨1280, 720⟩

/-- A test dictionary as consumed by `run_test`: `id` and `steps` are
required keys; `title` and `viewport` may be absent (`none`). -/
structure Test where
  id : String
  title : Option String
  steps : List Step
  viewport : Option Viewport
deriving DecidableEq, Repr

/-- Browser oracle for one step position: `act` is the outcome of the
plain browser call made by actions that can reach the outer `except`
handler (`.error msg` models a raised exception), `txt` is the outcome of
`wait_for_selector` + `inner_text` for a `check_value` step, and `vis`
tells whether the element of a `check_element_change` step became visible
in time (any exception inside its inner `try` is `vis = false`). -/
structure StepEnv where
  act : Except String Unit
  txt : Except String String
  vis : Bool

/-- The four actions whose uncaught exceptions set `test_failed_on_step`
(executor.py line 141). -/
def criticalActions : List String :=
  ["goto", "check_selector", "check_value", "check_element_change"]

/-- The actions whose body can raise out to the outer `except` handler of
the step loop. `click_if` swallows its click exception, and
`check_element_change` catches everything in its inner `try`, so neither
reaches the outer handler; unknown actions execute `pass`. -/
def mayRaiseActions : List String :=
  ["goto", "wait_for", "type_random_number", "type_value", "submit", "check_selector"]

/-- The `step_skipped` entry appended when a previous critical assertion
failed (executor.py lines 59-60). -/
def skipEntry (action : String) : LogEntry :=
  ⟨"info", "step_skipped:" ++ action ++ ":previous_assertion_failure"⟩

/-- The `step_error` entry appended by the outer `except` handler. -/
def stepErrorEntry (name msg : String) : LogEntry :=
  ⟨"error", "step_error:" ++ name ++ ":" ++ msg⟩

/-- The `assertion_error` entry appended on a `check_value` mismatch. -/
def assertionErrorEntry (sel actual expected : String) : LogEntry :=
  ⟨"assertion_error",
   "Assertion failed: Selector '" ++ sel ++ "' had value '" ++ actual
     ++ "', expected '" ++ expected ++ "'."⟩

/-- The `assertion_success` entry appended on a `check_value` match. -/
def assertionSuccessEntry (expected : String) : LogEntry :=
  ⟨"assertion_success", "Assertion passed: Value was '" ++ expected ++ "'."⟩

/-- One iteration of the step loop of `ExecutorAgent._run_steps`:
state is `(test_failed_on_step, console_logs)`. -/
def runStep (st : Bool × List LogEntry) (step : Step) (e : StepEnv) :
    Bool × List LogEntry :=
  let failed := st.1
  let logs := st.2
  if failed then
    (failed, logs ++ [skipEntry step.action])
  else
    let name := step.action
    if name = "check_value" then
      let sel := pyStr (pget step.params "selector")
      let expected := pyStr (pget step.params "expected_value")
      match e.txt with
      | .error msg => (true, logs ++ [stepErrorEntry name msg])
      | .ok actual =>
        if pyStrip actual ≠ pyStrip expected then
          (true, logs ++ [assertionErrorEntry sel (pyStrip actual) (pyStrip expected)])
        else
          (false, logs ++ [assertionSuccessEntry (pyStrip expected)])
    else if name = "check_element_change" then
      let sel := pyStr (pget step.params "selector_to_check")
      let timeout := (pget step.params "timeout").getD "3000"
      let desc := (pget step.params "description").getD "Checking UI element change."
      if e.vis then
        (false, logs ++ [⟨"playability_success",
          "Playability check passed: " ++ desc ++ " Element '" ++ sel
            ++ "' is now visible."⟩])
      else
        (true, logs ++ [⟨"playability_error",
          "Playability check failed: " ++ desc ++ " Element '" ++ sel
            ++ "' did not become visible within " ++ timeout ++ "ms."⟩])
    else if mayRaiseActions.contains name then
      match e.act with
      | .ok _ => (false, logs)
      | .error msg => (criticalActions.contains name, logs ++ [stepErrorEntry name msg])
    else
      (false, logs)

/-- The step loop over a list of steps, threading the step index into the
oracle and the `(failed, logs)` state. -/
def runStepsFrom (env : Nat → StepEnv) :
    List Step → Nat → Bool × List LogEntry → Bool × List LogEntry
  | [], _, st => st
  | s :: rest, i, st => runStepsFrom env rest (i + 1) (runStep st s (env i))

/-- The record returned by `_run_steps` on normal completion. -/
structure StepArtifacts where
  dom : String
  screenshot : String
  console : List LogEntry
  network : List (String × String)
  critical_failure : Bool
deriving DecidableEq, Repr

/-- Browser oracle for one whole `_run_steps` call: per-step outcomes,
the outcome of the final `page.content()` / `page.screenshot()` pair
(`.error` models an exception escaping `_run_steps`), and the network
events accumulated by the passive listeners. -/
structure PageOracle where
  env : Nat → StepEnv
  finalize : Except String (String × String)
  network : List (String × String)

/-- `ExecutorAgent._run_steps`: run every step, then capture the DOM and
screenshot; an exception there propagates out of the interpreter. -/
def runStepsPy (t : Test) (o : PageOracle) : Except String StepArtifacts :=
  let r := runStepsFrom o.env t.steps 0 (false, [])
  match o.finalize with
  | .error m => .error m
  | .ok dp => .ok ⟨dp.1, dp.2, r.2, o.network, r.1⟩

/-- The verdict computation at the end of `run_test` (executor.py lines
186-194), including the tautological `len(artifacts["network"]) >= 0`
conjunct; a non-empty `dom` string is truthy. -/
def verdictOf (a : StepArtifacts) : String :=
  if a.critical_failure then "fail"
  else if a.dom ≠ "" ∧ a.network.length ≥ 0 then "pass"
  else "fail"

/-- `os.path.join` for one component. -/
def pathJoin (a b : String) : String := a ++ "/" ++ b

/-- The dictionary returned by `run_test`: id, verdict, the four artifact
paths, and the `meta` block. -/
structure ExecResult where
  id : String
  verdict : String
  artScreenshot : String
  artDom : String
  artConsole : String
  artNetwork : String
  metaTitle : Option String
  metaViewport : Viewport
deriving DecidableEq, Repr

/-- The result part of `ExecutorAgent.run_test`: run the interpreter on
the oracle and, when it completes, persist artifacts under
`out_dir/<test id>/` and compute the verdict. An interpreter exception
propagates. -/
def runTestResult (t : Test) (outDir : String) (o : PageOracle) :
    Except String ExecResult :=
  let viewport := t.viewport.getD defaultViewport
  match runStepsPy t o with
  | .error m => .error m
  | .ok arts =>
    let testDir := pathJoin outDir t.id
    .ok { id := t.id
          verdict := verdictOf arts
          artScreenshot := pathJoin testDir "screenshot.png"
          artDom := pathJoin testDir "dom.html"
          artConsole := pathJoin testDir "console.json"
          artNetwork := pathJoin testDir "network.json"
          metaTitle := t.title
          metaViewport := viewport }

/-- The session fields of an `ExecutorAgent`: `_playwright`, `_browser`,
`_context`, each either `none` or a resource tagged with its allocation
number. -/
structure SessionState where
  playwright : Option Nat
  browser : Option Nat
  context : Option Nat
deriving DecidableEq, Repr

/-- The state set by `ExecutorAgent.__init__`. -/
def initialSession : SessionState := ⟨none, none, none⟩

/-- `ExecutorAgent.start_browser`: allocate engine, browser and context
only when `_playwright is None`; `c` is the allocation counter, so an
unchanged counter means nothing was created. -/
def startBrowser (s : SessionState) (c : Nat) : SessionState × Nat :=
  if s.playwright = none then
    (⟨some c, some (c + 1), some (c + 2)⟩, c + 3)
  else
    (s, c)

/-- `ExecutorAgent.stop_browser`: closes and clears every sub-resource. -/
def stopBrowser (_s : SessionState) : SessionState := ⟨none, none, none⟩

/-- Observable events of one `run_test` call, in program order. -/
inductive PageEv where
  | ensureStarted
  | newPage
  | setViewport (v : Viewport)
  | ranSteps
  | closePage
  | persist (dir : String)
  | returned
  | raised (msg : String)
deriving DecidableEq, Repr

/-- Everything one `run_test` call produces: the executor's session state
and allocation counter afterwards, the event trace, and the result or
propagated exception. -/
structure RunTestOut where
  session : SessionState
  counter : Nat
  events : List PageEv
  result : Except String ExecResult

/-- `ExecutorAgent.run_test` with its effects made explicit: lazily start
the session if `_context` is unset, open a page at the test's viewport
(default 1280x720), run the interpreter inside `try`, and in `finally`
close the page — so the page closes before artifacts are persisted on the
normal path and before the exception propagates on the exceptional
path. -/
def runTestEvents (s : SessionState) (c : Nat) (t : Test) (outDir : String)
    (o : PageOracle) : RunTestOut :=
  let started :=
    if s.context = none then
      let sc := startBrowser s c
      (sc.1, sc.2, [PageEv.ensureStarted])
    else
      (s, c, ([] : List PageEv))
  let viewport := t.viewport.getD defaultViewport
  let evs := started.2.2 ++ [PageEv.newPage, PageEv.setViewport viewport, PageEv.ranSteps]
  match runStepsPy t o with
  | .error m =>
    ⟨started.1, started.2.1, evs ++ [PageEv.closePage, PageEv.raised m], .error m⟩
  | .ok _ =>
    ⟨started.1, started.2.1,
     evs ++ [PageEv.closePage, PageEv.persist (pathJoin outDir t.id), PageEv.returned],
     runTestResult t outDir o⟩

/-- The actions kept by the analyzer's reduced replay test. -/
def replayActions : List String := ["goto", "check_selector", "wait_for"]

/-- The reduced test built by `AnalyzerAgent.analyze` (analyzer.py lines
24-31): id suffixed `_replay`, title (defaulted to `""`) suffixed
` (replay)`, steps filtered to `replayActions` in order, and no
`viewport` key. -/
def reducedTest (t : Test) : Test :=
  { id := t.id ++ "_replay"
    title := some (t.title.getD "" ++ " (replay)")
    steps := t.steps.filter (fun s => replayActions.contains s.action)
    viewport := none }

/-- The dictionary returned by `analyze`. -/
structure AnalysisResult where
  replay_verdict : String
  reproducible : Bool
  score : ℚ
  replayArtScreenshot : String
  replayArtDom : String
  replayArtConsole : String
  replayArtNetwork : String
deriving DecidableEq, Repr

/-- `AnalyzerAgent.analyze`: run the reduced test through the executor
(`o` is the oracle of that replay run), then compare verdicts. An
exception from the replay run propagates. -/
def analyze (t : Test) (initialResult : ExecResult) (artifactsDir : String)
    (o : PageOracle) : Except String AnalysisResult :=
  match runTestResult (reducedTest t) artifactsDir o with
  | .error m => .error m
  | .ok replay =>
    let reproducible := initialResult.verdict == replay.verdict
    .ok { replay_verdict := replay.verdict
          reproducible := reproducible
          score := if reproducible then 1 else 0
          replayArtScreenshot := replay.artScreenshot
          replayArtDom := replay.artDom
          replayArtConsole := replay.artConsole
          replayArtNetwork := replay.artNetwork }

/-- One entry of the orchestrator's `results` list, as far as the report
summary inspects it. -/
structure RunResult where
  id : String
  verdict : String
deriving DecidableEq, Repr

/-- Report summary counters. -/
structure Summary where
  total : Nat
  passed : Nat
  failed : Nat
deriving DecidableEq, Repr

/-- The final report object. -/
structure Report where
  summary : Summary
  tests : List RunResult
deriving DecidableEq, Repr

/-- The report built at orchestrator.py lines 47-54: `total` counts the
collected results, `passed` those with verdict `"pass"`, `failed` those
with any other verdict. -/
def mkReport (rs : List RunResult) : Report :=
  { summary :=
      { total := rs.length
        passed := rs.countP (fun r => r.verdict == "pass")
        failed := rs.countP (fun r => r.verdict != "pass") }
    tests := rs }

/-- The collection loop `for t in tasks: results.append(await t)`:
results accumulate in dispatch order, and the first per-test exception
(in dispatch order) propagates, discarding the results list. -/
def collectResults (exec : Test → Except String RunResult) :
    List Test → Except String (List RunResult)
  | [] => .ok []
  | t :: ts =>
    match exec t with
    | .error e => .error e
    | .ok r =>
      match collectResults exec ts with
      | .error e => .error e
      | .ok rs => .ok (r :: rs)

/-- What one `OrchestratorAgent.run` call produces: how many times
`stop_browser` ran, and the report or the propagated exception. -/
structure OrchOut where
  stopCalls : Nat
  report : Except String Report
deriving Repr

/-- `OrchestratorAgent.run`: start the session, collect every per-test
result in dispatch order, build the report, stop the session. A per-test
exception propagates out of the collection loop, so the report is never
built and `stop_browser` is never reached on that path. -/
def orchestratorRun (tests : List Test) (exec : Test → Except String RunResult) :
    OrchOut :=
  match collectResults exec tests with
  | .error e => ⟨0, .error e⟩
  | .ok rs => ⟨1, .ok (mkReport rs)⟩

/-- An `ExecutorAgent` object identity: `ref` is its allocation number,
distinct allocations being distinct objects. -/
structure ExecutorAgent where
  ref : Nat
deriving DecidableEq, Repr

/-- `ExecutorAgent()` construction: take the next allocation number. -/
def mkExecutorAgent (c : Nat) : ExecutorAgent × Nat := (⟨c⟩, c + 1)

/-- `AnalyzerAgent`: its `__init__` allocates its own `ExecutorAgent`
(analyzer.py line 15). -/
structure AnalyzerAgent where
  executor : ExecutorAgent
deriving DecidableEq, Repr

/-- `AnalyzerAgent()` construction. -/
def mkAnalyzerAgent (c : Nat) : AnalyzerAgent × Nat :=
  let ec := mkExecutorAgent c
  (⟨ec.1⟩, ec.2)

/-- `OrchestratorAgent`: its `__init__` allocates one `ExecutorAgent` and
one `AnalyzerAgent` (orchestrator.py lines 13-15). -/
structure OrchestratorAgent where
  executor : ExecutorAgent
  analyzer : AnalyzerAgent
deriving DecidableEq, Repr

/-- `OrchestratorAgent()` construction. -/
def mkOrchestratorAgent (c : Nat) : OrchestratorAgent × Nat :=
  let ec := mkExecutorAgent c
  let ac := mkAnalyzerAgent ec.2
  (⟨ec.1, ac.1⟩, ac.2)

/-- The executor whose session `_run_one` drives for the main run:
`self.executor.run_test` (orchestrator.py line 23). -/
def mainRunExecutor (o : OrchestratorAgent) : ExecutorAgent := o.executor

/-- The executor whose session the analyzer's nested replay drives:
`self.executor.run_test` inside `analyze` (analyzer.py line 35), i.e. the
analyzer's own executor. -/
def replayRunExecutor (o : OrchestratorAgent) : ExecutorAgent :=
  o.analyzer.executor

/-! ### Step-loop lemmas -/

theorem runStepsFrom_append (env : Nat → StepEnv) (xs ys : List Step) (i : Nat)
    (st : Bool × List LogEntry) :
    runStepsFrom env (xs ++ ys) i st
      = runStepsFrom env ys (i + xs.length) (runStepsFrom env xs i st) := by
  induction xs generalizing i st with
  | nil => simp [runStepsFrom]
  | cons s rest ih =>
    show runStepsFrom env (rest ++ ys) (i + 1) (runStep st s (env i)) = _
    rw [ih]
    simp [runStepsFrom]
    congr 1
    omega

theorem runStepsFrom_of_failed (env : Nat → StepEnv) (ys : List Step) (i : Nat)
    (logs : List LogEntry) :
    runStepsFrom env ys i (true, logs)
      = (true, logs ++ ys.map (fun s => skipEntry s.action)) := by
  induction ys generalizing i logs with
  | nil => simp [runStepsFrom]
  | cons s rest ih =>
    show runStepsFrom env rest (i + 1) (runStep (true, logs) s (env i)) = _
    have hs : runStep (true, logs) s (env i) = (true, logs ++ [skipEntry s.action]) := by
      simp [runStep]
    rw [hs, ih]
    simp

/-- C4: in every test, an executed `check_value` step whose element's
stripped text differs from the stripped expected value sets the
critical-failure flag, and every later step is skipped with a
`step_skipped:<action>:previous_assertion_failure` entry while the loop
still processes all remaining steps to completion. -/
theorem check_value_mismatch_sets_flag_and_skips_rest
    (env : Nat → StepEnv) (pre post : List Step) (a : Step) (t : String)
    (hpre : (runStepsFrom env pre 0 (false, [])).1 = false)
    (ha : a.action = "check_value")
    (htxt : (env pre.length).txt = Except.ok t)
    (hne : pyStrip t ≠ pyStrip (pyStr (pget a.params "expected_value"))) :
    (runStepsFrom env (pre ++ a :: post) 0 (false, [])).1 = true ∧
    (runStepsFrom env (pre ++ a :: post) 0 (false, [])).2
      = (runStepsFrom env pre 0 (false, [])).2
          ++ [assertionErrorEntry (pyStr (pget a.params "selector")) (pyStrip t)
                (pyStrip (pyStr (pget a.params "expected_value")))]
          ++ post.map (fun s => skipEntry s.action) := by
  rcases hE : runStepsFrom env pre 0 (false, []) with ⟨b, L⟩
  rw [hE] at hpre
  simp only at hpre
  subst hpre
  have hstep : runStep (false, L) a (env pre.length)
      = (true, L ++ [assertionErrorEntry (pyStr (pget a.params "selector")) (pyStrip t)
                (pyStrip (pyStr (pget a.params "expected_value")))]) := by
    simp [runStep, ha, htxt, hne]
  have key : runStepsFrom env (pre ++ a :: post) 0 (false, [])
      = (true, L ++ [assertionErrorEntry (pyStr (pget a.params "selector")) (pyStrip t)
                (pyStrip (pyStr (pget a.params "expected_value")))]
          ++ post.map (fun s => skipEntry s.action)) := by
    rw [runStepsFrom_append, hE]
    show runStepsFrom env post (0 + pre.length + 1)
        (runStep (false, L) a (env (0 + pre.length))) = _
    rw [Nat.zero_add, hstep, runStepsFrom_of_failed]
  rw [key]
  exact ⟨rfl, rfl⟩

/-- A browser oracle for the C4 witness: every plain call succeeds and
`check_value` reads the text `5`. -/
def c4Env : Nat → StepEnv := fun _ => ⟨Except.ok (), Except.ok "5", true⟩

/-- C4 witness steps. -/
def c4Goto : Step := ⟨"goto", [("url", "x")]⟩

/-- C4 witness `check_value` step expecting `7`. -/
def c4Check : Step := ⟨"check_value", [("selector", "#s"), ("expected_value", "7")]⟩

/-- C4 witness trailing step that must be skipped. -/
def c4Click : Step := ⟨"click_if", [("selector", "#b")]⟩

/-- Concrete instance of the C4 theorem: a passing `goto`, a mismatching
`check_value` (actual `5`, expected `7`), then a `click_if` that gets
skipped. -/
theorem check_value_mismatch_sets_flag_and_skips_rest_witness :
    (runStepsFrom c4Env ([c4Goto] ++ c4Check :: [c4Click]) 0 (false, [])).1 = true ∧
    (runStepsFrom c4Env ([c4Goto] ++ c4Check :: [c4Click]) 0 (false, [])).2
      = (runStepsFrom c4Env [c4Goto] 0 (false, [])).2
          ++ [assertionErrorEntry (pyStr (pget c4Check.params "selector")) (pyStrip "5")
                (pyStrip (pyStr (pget c4Check.params "expected_value")))]
          ++ [c4Click].map (fun s => skipEntry s.action) :=
  check_value_mismatch_sets_flag_and_skips_rest c4Env [c4Goto] [c4Click] c4Check "5"
    (by decide) rfl rfl (by decide)

/-- C10: a `check_value` step whose params omit `expected_value`
stringifies the missing parameter to the literal `"None"`, is executed
(an assertion entry is appended, it is neither rejected nor skipped), and
sets the critical-failure flag exactly when the element's stripped text
differs from `"None"`. -/
theorem check_value_missing_expected_compares_none
    (L : List LogEntry) (a : Step) (e : StepEnv) (t : String)
    (ha : a.action = "check_value")
    (hp : pget a.params "expected_value" = none)
    (ht : e.txt = Except.ok t) :
    pyStr (pget a.params "expected_value") = "None" ∧
    ((runStep (false, L) a e).1 = true ↔ pyStrip t ≠ "None") ∧
    (runStep (false, L) a e).2
      = L ++ [if pyStrip t ≠ "None"
              then assertionErrorEntry (pyStr (pget a.params "selector")) (pyStrip t) "None"
              else assertionSuccessEntry "None"] := by
  have hnone : pyStr (pget a.params "expected_value") = "None" := by
    rw [hp]; rfl
  have hstripNone : pyStrip "None" = "None" := by decide
  refine ⟨hnone, ?_, ?_⟩ <;>
    by_cases hc : pyStrip t = "None" <;>
      simp [runStep, ha, ht, hnone, hstripNone, hc]

/-- C10 oracle: the element's text reads `7`. -/
def c10Env : StepEnv := ⟨Except.ok (), Except.ok "7", true⟩

/-- C10 step: `check_value` with no `expected_value` param. -/
def c10Check : Step := ⟨"check_value", [("selector", "#s")]⟩

/-- Concrete instance of the C10 theorem: text `7` against the stringified
missing parameter `"None"` mismatches, so the flag is set. -/
theorem check_value_missing_expected_compares_none_witness :
    pyStr (pget c10Check.params "expected_value") = "None" ∧
    ((runStep (false, []) c10Check c10Env).1 = true ↔ pyStrip "7" ≠ "None") ∧
    (runStep (false, []) c10Check c10Env).2
      = [] ++ [if pyStrip "7" ≠ "None"
               then assertionErrorEntry (pyStr (pget c10Check.params "selector")) (pyStrip "7") "None"
               else assertionSuccessEntry "None"] :=
  check_value_missing_expected_compares_none [] c10Check c10Env "7" rfl rfl rfl

/-- C1: for every `run_test` call that returns, the verdict is `fail` when
the interpreter's critical-failure flag is set, otherwise `pass` exactly
when the captured DOM snapshot is non-empty; the network-log length never
changes the verdict. -/
theorem run_test_verdict_rule (t : Test) (d : String) (o : PageOracle)
    (arts : StepArtifacts) (r : ExecResult)
    (h1 : runStepsPy t o = Except.ok arts)
    (h2 : runTestResult t d o = Except.ok r) :
    r.verdict = (if arts.critical_failure then "fail"
                 else if arts.dom ≠ "" then "pass" else "fail") ∧
    ∀ nw : List (String × String),
      verdictOf { arts with network := nw } = verdictOf arts := by
  have hv : r.verdict = verdictOf arts := by
    simp only [runTestResult, h1, Except.ok.injEq] at h2
    rw [← h2]
  refine ⟨?_, ?_⟩
  · rw [hv]
    by_cases hc : arts.critical_failure <;> by_cases hd : arts.dom = "" <;>
      simp [verdictOf, hc, hd]
  · intro nw
    by_cases hc : arts.critical_failure <;> by_cases hd : arts.dom = "" <;>
      simp [verdictOf, hc, hd]

/-- C1 witness oracle: no steps, a non-empty DOM, an empty network log. -/
def c1Oracle : PageOracle :=
  ⟨fun _ => ⟨Except.ok (), Except.ok "", true⟩, Except.ok ("<html>", "png"), []⟩

/-- C1 witness test. -/
def c1Test : Test := ⟨"t1", some "a test", [], none⟩

/-- C1 witness artifacts: what `_run_steps` returns for `c1Test` under
`c1Oracle`. -/
def c1Arts : StepArtifacts := ⟨"<html>", "png", [], [], false⟩

/-- Concrete instance of the C1 theorem: no critical failure and a
non-empty DOM give verdict `pass`, independent of the network log. -/
theorem run_test_verdict_rule_witness :
    (ExecResult.verdict
        { id := "t1", verdict := verdictOf c1Arts
          artScreenshot := pathJoin (pathJoin "out" "t1") "screenshot.png"
          artDom := pathJoin (pathJoin "out" "t1") "dom.html"
          artConsole := pathJoin (pathJoin "out" "t1") "console.json"
          artNetwork := pathJoin (pathJoin "out" "t1") "network.json"
          metaTitle := some "a test", metaViewport := defaultViewport })
      = (if c1Arts.critical_failure then "fail"
         else if c1Arts.dom ≠ "" then "pass" else "fail") ∧
    ∀ nw : List (String × String),
      verdictOf { c1Arts with network := nw } = verdictOf c1Arts :=
  run_test_verdict_rule c1Test "out" c1Oracle c1Arts _ rfl rfl

/-- C7: `run_test` closes its page on every exit path: when the
interpreter completes, the page closes before artifacts are persisted and
the result is returned; when the interpreter raises, the page closes
before the exception propagates out. -/
theorem run_test_closes_page_on_all_paths (s : SessionState) (c : Nat)
    (t : Test) (d : String) (o : PageOracle) :
    (∀ arts, runStepsPy t o = Except.ok arts →
      ∃ pre, (runTestEvents s c t d o).events
          = pre ++ [PageEv.ranSteps, PageEv.closePage,
                    PageEv.persist (pathJoin d t.id), PageEv.returned] ∧
        (runTestEvents s c t d o).result = runTestResult t d o) ∧
    (∀ m, runStepsPy t o = Except.error m →
      ∃ pre, (runTestEvents s c t d o).events
          = pre ++ [PageEv.ranSteps, PageEv.closePage, PageEv.raised m] ∧
        (runTestEvents s c t d o).result = Except.error m) := by
  constructor
  · intro arts hok
    refine ⟨(if s.context = none then [PageEv.ensureStarted] else [])
        ++ [PageEv.newPage, PageEv.setViewport (t.viewport.getD defaultViewport)], ?_, ?_⟩ <;>
      by_cases hs : s.context = none <;>
        simp [runTestEvents, hok, hs]
  · intro m herr
    refine ⟨(if s.context = none then [PageEv.ensureStarted] else [])
        ++ [PageEv.newPage, PageEv.setViewport (t.viewport.getD defaultViewport)], ?_, ?_⟩ <;>
      by_cases hs : s.context = none <;>
        simp [runTestEvents, herr, hs]

/-- C7 witness test. -/
def c7Test : Test := ⟨"t7", some "page release", [], none⟩

/-- C7 witness oracle on the normal path. -/
def c7OkOracle : PageOracle :=
  ⟨fun _ => ⟨Except.ok (), Except.ok "", true⟩, Except.ok ("<html>", "png"), []⟩

/-- C7 witness oracle on the exceptional path: the final
`page.content()` raises. -/
def c7ErrOracle : PageOracle :=
  ⟨fun _ => ⟨Except.ok (), Except.ok "", true⟩, Except.error "content failed", []⟩

/-- Concrete instances of the C7 theorem: one normal run and one whose
interpreter raises; the page-close event precedes the persist and the
propagated exception respectively. -/
theorem run_test_closes_page_on_all_paths_witness :
    (∃ pre, (runTestEvents initialSession 0 c7Test "out" c7OkOracle).events
        = pre ++ [PageEv.ranSteps, PageEv.closePage,
                  PageEv.persist (pathJoin "out" c7Test.id), PageEv.returned] ∧
      (runTestEvents initialSession 0 c7Test "out" c7OkOracle).result
        = runTestResult c7Test "out" c7OkOracle) ∧
    (∃ pre, (runTestEvents initialSession 0 c7Test "out" c7ErrOracle).events
        = pre ++ [PageEv.ranSteps, PageEv.closePage, PageEv.raised "content failed"] ∧
      (runTestEvents initialSession 0 c7Test "out" c7ErrOracle).result
        = Except.error "content failed") :=
  ⟨(run_test_closes_page_on_all_paths initialSession 0 c7Test "out" c7OkOracle).1
      ⟨"<html>", "png", [], [], false⟩ rfl,
   (run_test_closes_page_on_all_paths initialSession 0 c7Test "out" c7ErrOracle).2
      "content failed" rfl⟩

/-- C8: `start_browser` is idempotent — on an already-started session it
changes nothing and allocates nothing — and a `run_test` on a fresh,
never-started executor lazily starts the session before opening its
page. -/
theorem start_browser_idempotent_and_lazy :
    (∀ (s : SessionState) (c : Nat), s.playwright ≠ none →
      startBrowser s c = (s, c)) ∧
    (∀ (c : Nat) (t : Test) (d : String) (o : PageOracle),
      ∃ rest, (runTestEvents initialSession c t d o).events
            = PageEv.ensureStarted :: PageEv.newPage :: rest ∧
        (runTestEvents initialSession c t d o).session.playwright ≠ none ∧
        (runTestEvents initialSession c t d o).session.context ≠ none) := by
  constructor
  · intro s c h
    simp [startBrowser, h]
  · intro c t d o
    refine ⟨PageEv.setViewport (t.viewport.getD defaultViewport) :: PageEv.ranSteps ::
        (match runStepsPy t o with
         | .error m => [PageEv.closePage, PageEv.raised m]
         | .ok _ => [PageEv.closePage, PageEv.persist (pathJoin d t.id), PageEv.returned]),
      ?_, ?_, ?_⟩ <;>
      rcases hr : runStepsPy t o with m | arts <;>
        simp [runTestEvents, startBrowser, initialSession, hr]

/-- Concrete instance of the C8 theorem: a started session is untouched
by `start_browser`, and a fresh executor's `run_test` starts the session
first. -/
theorem start_browser_idempotent_and_lazy_witness :
    startBrowser ⟨some 0, some 1, some 2⟩ 3 = (⟨some 0, some 1, some 2⟩, 3) ∧
    ∃ rest, (runTestEvents initialSession 0 ⟨"t8", none, [], none⟩ "out"
          ⟨fun _ => ⟨Except.ok (), Except.ok "", true⟩, Except.ok ("<html>", "png"), []⟩).events
        = PageEv.ensureStarted :: PageEv.newPage :: rest ∧
      (runTestEvents initialSession 0 ⟨"t8", none, [], none⟩ "out"
          ⟨fun _ => ⟨Except.ok (), Except.ok "", true⟩, Except.ok ("<html>", "png"), []⟩).session.playwright ≠ none ∧
      (runTestEvents initialSession 0 ⟨"t8", none, [], none⟩ "out"
          ⟨fun _ => ⟨Except.ok (), Except.ok "", true⟩, Except.ok ("<html>", "png"), []⟩).session.context ≠ none :=
  ⟨start_browser_idempotent_and_lazy.1 ⟨some 0, some 1, some 2⟩ 3 (by decide),
   start_browser_idempotent_and_lazy.2 0 ⟨"t8", none, [], none⟩ "out"
     ⟨fun _ => ⟨Except.ok (), Except.ok "", true⟩, Except.ok ("<html>", "png"), []⟩⟩

theorem runTestEvents_events (s : SessionState) (c : Nat) (t : Test)
    (d : String) (o : PageOracle) :
    (runTestEvents s c t d o).events
      = (if s.context = none then [PageEv.ensureStarted] else [])
        ++ [PageEv.newPage, PageEv.setViewport (t.viewport.getD defaultViewport),
            PageEv.ranSteps, PageEv.closePage]
        ++ (match runStepsPy t o with
            | .error m => [PageEv.raised m]
            | .ok _ => [PageEv.persist (pathJoin d t.id), PageEv.returned]) := by
  rcases hr : runStepsPy t o with m | arts <;>
    by_cases hs : s.context = none <;>
      simp [runTestEvents, hr, hs]

/-- C9: a test with an explicit non-default viewport loses it in the
reduced replay test, so every replay run sets the default 1280x720
viewport and never the original one. -/
theorem replay_runs_at_default_viewport (t : Test) (v : Viewport)
    (hv : t.viewport = some v) (hnd : v ≠ defaultViewport) :
    (reducedTest t).viewport = none ∧
    ∀ (s : SessionState) (c : Nat) (d : String) (o : PageOracle),
      PageEv.setViewport defaultViewport
          ∈ (runTestEvents s c (reducedTest t) d o).events ∧
      PageEv.setViewport v ∉ (runTestEvents s c (reducedTest t) d o).events := by
  refine ⟨rfl, ?_⟩
  intro s c d o
  have hvp : (reducedTest t).viewport.getD defaultViewport = defaultViewport := rfl
  rw [runTestEvents_events, hvp]
  constructor <;>
    by_cases hs : s.context = none <;>
      rcases hr : runStepsPy (reducedTest t) o with m | arts <;>
        simp [hs, hr, hnd]

/-- C9 witness test, carrying a 640x480 viewport. -/
def c9Test : Test :=
  ⟨"t9", some "sized", [⟨"goto", [("url", "x")]⟩], some ⟨640, 480⟩⟩

/-- C9 witness oracle. -/
def c9Oracle : PageOracle :=
  ⟨fun _ => ⟨Except.ok (), Except.ok "", true⟩, Except.ok ("<html>", "png"), []⟩

/-- Concrete instance of the C9 theorem at a 640x480 test. -/
theorem replay_runs_at_default_viewport_witness :
    (reducedTest c9Test).viewport = none ∧
    PageEv.setViewport defaultViewport
        ∈ (runTestEvents initialSession 0 (reducedTest c9Test) "out" c9Oracle).events ∧
    PageEv.setViewport ⟨640, 480⟩
        ∉ (runTestEvents initialSession 0 (reducedTest c9Test) "out" c9Oracle).events :=
  ⟨(replay_runs_at_default_viewport c9Test ⟨640, 480⟩ rfl (by decide)).1,
   (replay_runs_at_default_viewport c9Test ⟨640, 480⟩ rfl (by decide)).2
     initialSession 0 "out" c9Oracle⟩

/-- C5: `analyze` builds the reduced test (`_replay` id suffix,
` (replay)` title suffix, exactly the `goto`/`check_selector`/`wait_for`
steps in their original order), executes it through the executor, and
returns `reproducible = (initial verdict == replay verdict)` with score 1
when reproducible and 0 otherwise. -/
theorem analyze_builds_reduced_replay (t : Test) (init : ExecResult)
    (d : String) (o : PageOracle) (replay : ExecResult)
    (hrep : runTestResult (reducedTest t) d o = Except.ok replay) :
    (reducedTest t).id = t.id ++ "_replay" ∧
    (∀ ti, t.title = some ti → (reducedTest t).title = some (ti ++ " (replay)")) ∧
    (reducedTest t).steps.Sublist t.steps ∧
    (∀ s : Step, s ∈ (reducedTest t).steps ↔
        s ∈ t.steps ∧ (s.action = "goto" ∨ s.action = "check_selector"
          ∨ s.action = "wait_for")) ∧
    analyze t init d o = Except.ok
      { replay_verdict := replay.verdict
        reproducible := init.verdict == replay.verdict
        score := if init.verdict == replay.verdict then 1 else 0
        replayArtScreenshot := replay.artScreenshot
        replayArtDom := replay.artDom
        replayArtConsole := replay.artConsole
        replayArtNetwork := replay.artNetwork } ∧
    ((init.verdict == replay.verdict) = true ↔ init.verdict = replay.verdict) := by
  refine ⟨rfl, ?_, ?_, ?_, ?_, ?_⟩
  · intro ti hti
    simp [reducedTest, hti]
  · exact List.filter_sublist t.steps
  · intro s
    simp [reducedTest, List.mem_filter, replayActions]
  · simp [analyze, hrep]
  · exact beq_iff_eq

/-- C5 witness test: a `goto`, a `type_value`, then a `check_selector`. -/
def c5Test : Test :=
  ⟨"t5", some "sum game",
   [⟨"goto", [("url", "x")]⟩, ⟨"type_value", [("value", "3")]⟩,
    ⟨"check_selector", [("selector", "body")]⟩], none⟩

/-- C5 witness oracle for the replay run. -/
def c5Oracle : PageOracle :=
  ⟨fun _ => ⟨Except.ok (), Except.ok "", true⟩, Except.ok ("<html>", "png"), []⟩

/-- C5 witness initial result (verdict `pass`). -/
def c5Init : ExecResult :=
  ⟨"t5", "pass", "s", "d", "c", "n", some "sum game", defaultViewport⟩

/-- C5 witness replay result: what `runTestResult` returns for the
reduced test under `c5Oracle`. -/
def c5Replay : ExecResult :=
  ⟨"t5_replay", "pass", "out/t5_replay/screenshot.png", "out/t5_replay/dom.html",
   "out/t5_replay/console.json", "out/t5_replay/network.json",
   some "sum game (replay)", defaultViewport⟩

/-- Concrete instance of the C5 theorem. -/
theorem analyze_builds_reduced_replay_witness :
    (reducedTest c5Test).id = c5Test.id ++ "_replay" ∧
    (∀ ti, c5Test.title = some ti → (reducedTest c5Test).title = some (ti ++ " (replay)")) ∧
    (reducedTest c5Test).steps.Sublist c5Test.steps ∧
    (∀ s : Step, s ∈ (reducedTest c5Test).steps ↔
        s ∈ c5Test.steps ∧ (s.action = "goto" ∨ s.action = "check_selector"
          ∨ s.action = "wait_for")) ∧
    analyze c5Test c5Init "out" c5Oracle = Except.ok
      { replay_verdict := (c5Replay).verdict
        reproducible := c5Init.verdict == (c5Replay).verdict
        score := if c5Init.verdict == (c5Replay).verdict then 1 else 0
        replayArtScreenshot := (c5Replay).artScreenshot
        replayArtDom := (c5Replay).artDom
        replayArtConsole := (c5Replay).artConsole
        replayArtNetwork := (c5Replay).artNetwork } ∧
    ((c5Init.verdict == (c5Replay).verdict) = true ↔ c5Init.verdict = (c5Replay).verdict) :=
  analyze_builds_reduced_replay c5Test c5Init "out" c5Oracle c5Replay rfl

/-! ### Collection-loop lemmas -/

theorem collectResults_length (exec : Test → Except String RunResult) :
    ∀ (ts : List Test) (rs : List RunResult),
      collectResults exec ts = Except.ok rs → rs.length = ts.length := by
  intro ts
  induction ts with
  | nil =>
    intro rs h
    simp only [collectResults, Except.ok.injEq] at h
    subst h; rfl
  | cons t ts ih =>
    intro rs h
    simp only [collectResults] at h
    split at h
    · exact absurd h (by simp)
    · split at h
      · exact absurd h (by simp)
      · rename_i r hr rs' hrs'
        cases h
        simp [ih rs' hrs']

theorem collectResults_get (exec : Test → Except String RunResult) :
    ∀ (ts : List Test) (rs : List RunResult),
      collectResults exec ts = Except.ok rs →
      ∀ (i : Nat) (hi : i < ts.length) (hri : i < rs.length),
        exec (ts.get ⟨i, hi⟩) = Except.ok (rs.get ⟨i, hri⟩) := by
  intro ts
  induction ts with
  | nil =>
    intro rs h i hi
    exact absurd hi (by simp)
  | cons t ts ih =>
    intro rs h i hi hri
    simp only [collectResults] at h
    cases hu : exec t with
    | error e => simp only [hu] at h; exact absurd h (by simp)
    | ok r =>
      simp only [hu] at h
      cases hc : collectResults exec ts with
      | error e => simp only [hc] at h; exact absurd h (by simp)
      | ok rs' =>
        simp only [hc, Except.ok.injEq] at h
        subst h
        match i with
        | 0 => exact hu
        | i + 1 =>
          exact ih rs' hc i (by simpa using hi) (by simpa using hri)

theorem collectResults_all_ok (exec : Test → Except String RunResult) :
    ∀ ts : List Test, (∀ t ∈ ts, ∃ r, exec t = Except.ok r) →
      ∃ rs, collectResults exec ts = Except.ok rs := by
  intro ts
  induction ts with
  | nil => exact fun _ => ⟨[], rfl⟩
  | cons t ts ih =>
    intro h
    obtain ⟨r, hr⟩ := h t (by simp)
    obtain ⟨rs, hrs⟩ := ih (fun u hu => h u (by simp [hu]))
    exact ⟨r :: rs, by simp [collectResults, hr, hrs]⟩

theorem collectResults_error_of_mem (exec : Test → Except String RunResult) :
    ∀ (ts : List Test) (t : Test), t ∈ ts → ∀ e, exec t = Except.error e →
      ∃ m, collectResults exec ts = Except.error m := by
  intro ts
  induction ts with
  | nil => intro t ht; exact absurd ht (by simp)
  | cons u ts ih =>
    intro t ht e he
    rcases List.mem_cons.mp ht with rfl | hmem
    · exact ⟨e, by simp [collectResults, he]⟩
    · cases hu : exec u with
      | error m => exact ⟨m, by simp [collectResults, hu]⟩
      | ok r =>
        obtain ⟨m, hm⟩ := ih t hmem e he
        exact ⟨m, by simp [collectResults, hu, hm]⟩

/-- C6: when every per-test run returns a result, the report's
`summary.total` equals the number of submitted tests,
`passed + failed = total`, and `Report.tests` lists the results in
dispatch (submission) order — the i-th entry is the i-th submitted
test's result. -/
theorem orchestrator_report_shape (tests : List Test)
    (exec : Test → Except String RunResult) (rs : List RunResult)
    (h : collectResults exec tests = Except.ok rs) :
    (orchestratorRun tests exec).report = Except.ok (mkReport rs) ∧
    (mkReport rs).summary.total = tests.length ∧
    (mkReport rs).summary.passed + (mkReport rs).summary.failed
        = (mkReport rs).summary.total ∧
    (mkReport rs).tests = rs ∧
    ∀ (i : Nat) (hi : i < tests.length), ∃ hri : i < rs.length,
      exec (tests.get ⟨i, hi⟩) = Except.ok ((mkReport rs).tests.get ⟨i, hri⟩) := by
  have hlen : rs.length = tests.length := collectResults_length exec tests rs h
  have hcount : ∀ l : List RunResult,
      l.countP (fun r => r.verdict == "pass")
        + l.countP (fun r => r.verdict != "pass") = l.length := by
    intro l
    induction l with
    | nil => rfl
    | cons r l ih =>
      rw [List.countP_cons, List.countP_cons, List.length_cons, ← ih]
      cases hp : (r.verdict == "pass") <;> simp [hp, bne] <;> omega
  refine ⟨by simp [orchestratorRun, h], by simp [mkReport, hlen], ?_, rfl, ?_⟩
  · simpa [mkReport] using hcount rs
  · intro i hi
    have hri : i < rs.length := by omega
    exact ⟨hri, collectResults_get exec tests rs h i hi hri⟩

/-- C6 witness tests. -/
def c6Tests : List Test := [⟨"a", none, [], none⟩, ⟨"b", none, [], none⟩]

/-- C6 witness per-test outcomes: `a` passes, `b` fails. -/
def c6Exec : Test → Except String RunResult := fun t =>
  if t.id = "a" then Except.ok ⟨"a", "pass"⟩ else Except.ok ⟨"b", "fail"⟩

/-- Concrete instance of the C6 theorem on a two-test batch. -/
theorem orchestrator_report_shape_witness :
    (orchestratorRun c6Tests c6Exec).report
        = Except.ok (mkReport [⟨"a", "pass"⟩, ⟨"b", "fail"⟩]) ∧
    (mkReport [⟨"a", "pass"⟩, ⟨"b", "fail"⟩]).summary.total = c6Tests.length ∧
    (mkReport [⟨"a", "pass"⟩, ⟨"b", "fail"⟩]).summary.passed
        + (mkReport [⟨"a", "pass"⟩, ⟨"b", "fail"⟩]).summary.failed
        = (mkReport [⟨"a", "pass"⟩, ⟨"b", "fail"⟩]).summary.total ∧
    (mkReport [⟨"a", "pass"⟩, ⟨"b", "fail"⟩]).tests = [⟨"a", "pass"⟩, ⟨"b", "fail"⟩] ∧
    ∀ (i : Nat) (hi : i < c6Tests.length),
      ∃ hri : i < ([⟨"a", "pass"⟩, ⟨"b", "fail"⟩] : List RunResult).length,
        c6Exec (c6Tests.get ⟨i, hi⟩)
          = Except.ok ((mkReport [⟨"a", "pass"⟩, ⟨"b", "fail"⟩]).tests.get ⟨i, hri⟩) :=
  orchestrator_report_shape c6Tests c6Exec [⟨"a", "pass"⟩, ⟨"b", "fail"⟩] rfl

/-- C2 counterexample tests: the first test's execution raises an
infrastructure failure, the second would return a result. -/
def c2Tests : List Test := [⟨"t1", none, [], none⟩, ⟨"t2", none, [], none⟩]

/-- C2 counterexample per-test outcomes. -/
def c2Exec : Test → Except String RunResult := fun t =>
  if t.id = "t1" then Except.error "page could not be created"
  else Except.ok ⟨"t2", "pass"⟩

/-- C2 counterexample: with one raising test in a two-test batch, `run`
propagates the exception — it does not return a report with one entry per
submitted test, and `stop_browser` runs zero times, not once. -/
theorem orchestrator_batch_survives_failure_counterexample :
    (orchestratorRun c2Tests c2Exec).report
        = Except.error "page could not be created" ∧
    (orchestratorRun c2Tests c2Exec).stopCalls = 0 := by
  constructor <;> rfl

/-- C2 amended: when every per-test run returns a result, `run` returns a
report with one entry per submitted test and stops the session exactly
once; but when any test's execution raises, the exception propagates out
of `run` — no report is produced and the session is never stopped. -/
theorem orchestrator_failure_propagates_out_of_run (tests : List Test)
    (exec : Test → Except String RunResult) :
    ((∀ t ∈ tests, ∃ r, exec t = Except.ok r) →
      ∃ rs, collectResults exec tests = Except.ok rs ∧
        (orchestratorRun tests exec).report = Except.ok (mkReport rs) ∧
        (orchestratorRun tests exec).stopCalls = 1 ∧
        (mkReport rs).tests.length = tests.length) ∧
    (∀ t ∈ tests, ∀ e, exec t = Except.error e →
      (orchestratorRun tests exec).stopCalls = 0 ∧
      ∃ m, (orchestratorRun tests exec).report = Except.error m) := by
  constructor
  · intro hall
    obtain ⟨rs, hrs⟩ := collectResults_all_ok exec tests hall
    exact ⟨rs, hrs, by simp [orchestratorRun, hrs], by simp [orchestratorRun, hrs],
      by simp [mkReport, collectResults_length exec tests rs hrs]⟩
  · intro t ht e he
    obtain ⟨m, hm⟩ := collectResults_error_of_mem exec tests t ht e he
    exact ⟨by simp [orchestratorRun, hm], m, by simp [orchestratorRun, hm]⟩

/-- C2 amended-theorem witness: both branches instantiated — a fully
successful batch, and the `c2Tests`/`c2Exec` batch whose first test
raises. -/
theorem orchestrator_failure_propagates_out_of_run_witness :
    (∃ rs, collectResults c6Exec c6Tests = Except.ok rs ∧
      (orchestratorRun c6Tests c6Exec).report = Except.ok (mkReport rs) ∧
      (orchestratorRun c6Tests c6Exec).stopCalls = 1 ∧
      (mkReport rs).tests.length = c6Tests.length) ∧
    ((orchestratorRun c2Tests c2Exec).stopCalls = 0 ∧
      ∃ m, (orchestratorRun c2Tests c2Exec).report = Except.error m) :=
  ⟨(orchestrator_failure_propagates_out_of_run c6Tests c6Exec).1
      (by
        intro t ht
        by_cases hid : t.id = "a"
        · exact ⟨⟨"a", "pass"⟩, by simp [c6Exec, hid]⟩
        · exact ⟨⟨"b", "fail"⟩, by simp [c6Exec, hid]⟩),
   (orchestrator_failure_propagates_out_of_run c2Tests c2Exec).2
      ⟨"t1", none, [], none⟩ (by simp [c2Tests]) "page could not be created" rfl⟩

/-- C3 counterexample: in a freshly constructed orchestrator, the
executor used by the analyzer's nested replay run is a different
`ExecutorAgent` object than the orchestrator's own session-owning
executor. -/
theorem replay_shares_session_counterexample :
    replayRunExecutor (mkOrchestratorAgent 0).1
      ≠ mainRunExecutor (mkOrchestratorAgent 0).1 := by
  decide

/-- C3 amended: every orchestrator-dispatched executor invocation runs in
the orchestrator's own executor session, but the analyzer's nested replay
run uses the analyzer's distinct `ExecutorAgent`, whose fresh,
never-started session is lazily started on its first replay — so a second
session does get created during a batch. -/
theorem replay_uses_analyzers_own_executor (c : Nat) :
    mainRunExecutor (mkOrchestratorAgent c).1
      ≠ replayRunExecutor (mkOrchestratorAgent c).1 ∧
    ∀ (k : Nat) (t : Test) (d : String) (o : PageOracle),
      (runTestEvents initialSession k t d o).events.head?
        = some PageEv.ensureStarted := by
  constructor
  · intro hEq
    have : c = c + 1 := congrArg ExecutorAgent.ref hEq
    omega
  · intro k t d o
    rcases hr : runStepsPy t o with m | arts <;>
      simp [runTestEvents, initialSession, hr]

/-- C3 witness test for the replay's lazy session start. -/
def c3Test : Test := ⟨"t3", none, [], none⟩

/-- C3 witness oracle. -/
def c3Oracle : PageOracle :=
  ⟨fun _ => ⟨Except.ok (), Except.ok "", true⟩, Except.ok ("<html>", "png"), []⟩

/-- Concrete instance of the amended C3 theorem. -/
theorem replay_uses_analyzers_own_executor_witness :
    mainRunExecutor (mkOrchestratorAgent 5).1
      ≠ replayRunExecutor (mkOrchestratorAgent 5).1 ∧
    (runTestEvents initialSession 0 c3Test "out" c3Oracle).events.head?
      = some PageEv.ensureStarted :=
  ⟨(replay_uses_analyzers_own_executor 5).1,
   (replay_uses_analyzers_own_executor 5).2 0 c3Test "out" c3Oracle⟩

end Game
